import Mathlib

/-!
Verification development for the query-and-cache layer of a small read-only
search API (Flask + polars) over a static titles dataset.

The embedding models text as lists of Unicode code points (`List Nat`), with
ASCII case mapping (the case behavior that `str.lower` / `str.upper` and the
polars `to_lowercase` expression exhibit on the ASCII range, which is the
range all claims exercise).  The polars expression
`col.str.to_lowercase().str.contains(pat, literal=False)` hands `pat` to a
regex engine; the embedding `reContains` models the regex fragment consisting
of literal characters and the `.` wildcard (any character except newline) —
exactly the fragment the claims about literal-versus-regex matching exercise;
theorems that need literal semantics assume the absence of the remaining
metacharacters via `noMetaChars`.
-/

/-- Code-point list of a string literal (convenience for concrete inputs). -/
def strN (s : String) : List Nat := s.toList.map Char.toNat

/-- ASCII lower-casing of one code point, as Python's `str.lower` and polars'
`to_lowercase` act on the ASCII range: `A`–`Z` (65–90) maps to `a`–`z`. -/
def pyLowerN (c : Nat) : Nat := if 65 ≤ c ∧ c ≤ 90 then c + 32 else c

/-- ASCII upper-casing of one code point (`a`–`z`, 97–122, maps to `A`–`Z`). -/
def pyUpperN (c : Nat) : Nat := if 97 ≤ c ∧ c ≤ 122 then c - 32 else c

/-- Python `str.lower` on the ASCII range, code-point-wise. -/
def pyLower (s : List Nat) : List Nat := s.map pyLowerN

/-- Python `str.upper` on the ASCII range, code-point-wise. -/
def pyUpper (s : List Nat) : List Nat := s.map pyUpperN

/-- Whitespace test used by Python's `str.strip` (ASCII whitespace:
tab 9, LF 10, VT 11, FF 12, CR 13, space 32). -/
def isSpaceN (c : Nat) : Bool :=
  c == 9 || c == 10 || c == 11 || c == 12 || c == 13 || c == 32

/-- Python `str.strip()`: drop leading and trailing whitespace. -/
def pyStrip (s : List Nat) : List Nat :=
  ((s.dropWhile isSpaceN).reverse.dropWhile isSpaceN).reverse

/-- Accumulate the value of a digit run; `none` on the first non-digit. -/
def digitsValGo (acc : Nat) : List Nat → Option Nat
  | [] => some acc
  | c :: rest =>
    if 48 ≤ c ∧ c ≤ 57 then digitsValGo (acc * 10 + (c - 48)) rest else none

/-- Value of a non-empty all-digit string, else `none`. -/
def digitsVal : List Nat → Option Nat
  | [] => none
  | c :: rest => digitsValGo 0 (c :: rest)

/-- Python `int(s)` on a decimal string: strip whitespace, optional sign,
then a non-empty digit run; `none` models the `ValueError` raise.
(Digit-group underscores, accepted by CPython, are not modelled; no claim
exercises them.) -/
def pyParseInt (s : List Nat) : Option Int :=
  match pyStrip s with
  | 43 :: rest => (digitsVal rest).map (fun n => (n : Int))
  | 45 :: rest => (digitsVal rest).map (fun n => -(n : Int))
  | t          => (digitsVal t).map (fun n => (n : Int))

/-- Boolean test: `pat` is a prefix of `hay`. -/
def leadsWith : List Nat → List Nat → Bool
  | [], _ => true
  | _ :: _, [] => false
  | p :: ps, h :: hs => p == h && leadsWith ps hs

/-- Literal substring containment: `pat` occurs contiguously in `hay`.
This is the spec's notion of "contains the predicate string as a literal
substring". -/
def hasSub (pat : List Nat) : List Nat → Bool
  | [] => pat.isEmpty
  | h :: hs => leadsWith pat (h :: hs) || hasSub pat hs

/-- Token of the modelled regex fragment: a literal code point, or the `.`
wildcard. -/
inductive RTok where
  | lit (c : Nat)
  | dot
deriving DecidableEq, Repr

/-- Compile a pattern string for the modelled regex fragment: `.` (code 46)
becomes the wildcard, every other code point a literal.  (The remaining regex
metacharacters are outside the modelled fragment; theorems relating
`reContains` to literal containment assume their absence.) -/
def parsePat (p : List Nat) : List RTok :=
  p.map fun c => if c == 46 then RTok.dot else RTok.lit c

/-- One regex token against one code point; the wildcard matches everything
except newline (code 10), as in the Rust regex engine polars uses. -/
def tokMatches : RTok → Nat → Bool
  | RTok.lit c, h => c == h
  | RTok.dot, h => !(h == 10)

/-- Match the whole token list against a prefix of `hay`. -/
def matchHere : List RTok → List Nat → Bool
  | [], _ => true
  | _ :: _, [] => false
  | t :: ts, h :: hs => tokMatches t h && matchHere ts hs

/-- Regex search anywhere in `hay` (the semantics of polars
`str.contains(pat, literal=False)` for patterns of the modelled fragment). -/
def reContains (toks : List RTok) : List Nat → Bool
  | [] => matchHere toks []
  | h :: hs => matchHere toks (h :: hs) || reContains toks hs

/-- One title row, with the columns the routes read.  `cast`, `director` and
`listed_in` are null-filled to `""` at load time, so plain strings suffice. -/
structure Record where
  title : List Nat
  type : List Nat
  release_year : Int
  director : List Nat
  cast : List Nat
  listed_in : List Nat
deriving DecidableEq, Repr

/-- The in-memory dataset table: an ordered sequence of records. -/
abbrev Table := List Record

/-- One supplied predicate against one column value, as the route builds it:
`pl.col(c).str.to_lowercase().str.contains(pred.lower(), literal=False)`. -/
def predMatch (pred col : List Nat) : Bool :=
  reContains (parsePat (pyLower pred)) (pyLower col)

/-- An optional predicate: `none` (or the falsy empty string, mirroring
`if actor:`) imposes no restriction. -/
def optPred (o : Option (List Nat)) (col : List Nat) : Bool :=
  match o with
  | none => true
  | some s => if s.isEmpty then true else predMatch s col

/-- Conjunction of the three column filters of `search_with_filters`
(actor→cast, director→director, genre→listed_in); the successive polars
`filter` calls compose into this single row test. -/
def rowKeep (actor director genre : Option (List Nat)) (r : Record) : Bool :=
  optPred actor r.cast && optPred director r.director && optPred genre r.listed_in

/-- The paginated result record built by `search_with_filters`. -/
structure QueryResult where
  results : List Record
  total : Nat
  page : Nat
  limit : Nat
  pages : Nat
deriving DecidableEq, Repr

/-- The cached search computation of `routes.search_with_filters`, given the
table that `get_df` returns: filter, count, slice `(offset, limit)`, and the
`(total + limit - 1) // limit` page count.  (The projection to the seven
response columns is the identity here since `Record` carries exactly the
columns the route selects.) -/
def search_with_filters (actor director genre : Option (List Nat))
    (page limit : Nat) (t : Table) : QueryResult :=
  let filtered := t.filter (rowKeep actor director genre)
  let total := filtered.length
  let offset := (page - 1) * limit
  { results := (filtered.drop offset).take limit
    total := total
    page := page
    limit := limit
    pages := if 0 < total then (total + limit - 1) / limit else 0 }

/-- Modelled from the spec's words (for comparison with the code): a
predicate matches when the case-folded column value contains the case-folded
predicate as a literal substring. -/
def optPredLiteral (o : Option (List Nat)) (col : List Nat) : Bool :=
  match o with
  | none => true
  | some s => if s.isEmpty then true else hasSub (pyLower s) (pyLower col)

/-- Modelled from the spec's words: row test with literal-substring
semantics for all three predicates. -/
def rowKeepLiteral (actor director genre : Option (List Nat)) (r : Record) : Bool :=
  optPredLiteral actor r.cast && optPredLiteral director r.director
    && optPredLiteral genre r.listed_in

/-- Modelled from the spec's words: the search computation with
literal-substring predicate semantics (everything else as the code has it). -/
def searchLiteralSpec (actor director genre : Option (List Nat))
    (page limit : Nat) (t : Table) : QueryResult :=
  let filtered := t.filter (rowKeepLiteral actor director genre)
  let total := filtered.length
  let offset := (page - 1) * limit
  { results := (filtered.drop offset).take limit
    total := total
    page := page
    limit := limit
    pages := if 0 < total then (total + limit - 1) / limit else 0 }

/-- Validation of one text search parameter (`routes.validate_search_param`):
an absent or falsy-empty value yields `none` (no restriction); otherwise the
value is stripped, and an empty-after-strip or over-100-character value is a
`ValueError` (modelled as `Except.error` with the message). -/
def validate_search_param (value : Option (List Nat)) (pname : String) :
    Except String (Option (List Nat)) :=
  match value with
  | none => Except.ok none
  | some v =>
    if v.isEmpty then Except.ok none
    else
      let t := pyStrip v
      if t.isEmpty then Except.error (pname ++ " cannot be empty")
      else if t.length > 100 then
        Except.error (pname ++ " exceeds maximum length of 100 characters")
      else Except.ok (some t)

/-- Validation of pagination parameters (`routes.validate_pagination`):
falsy (absent or empty) values default to page 1 / limit 20, anything else
must parse as an integer (`int(...)`, else the `ValueError` "Page and limit
must be integers"); then page must be ≥ 1 and limit in [1, 100]. -/
def validate_pagination (page limit : Option (List Nat)) :
    Except String (Nat × Nat) :=
  let pRes : Option Int :=
    match page with
    | none => some 1
    | some s => if s.isEmpty then some 1 else pyParseInt s
  let lRes : Option Int :=
    match limit with
    | none => some 20
    | some s => if s.isEmpty then some 20 else pyParseInt s
  match pRes, lRes with
  | some p, some l =>
    if p < 1 then Except.error "Page must be >= 1"
    else if l < 1 ∨ l > 100 then Except.error "Limit must be between 1 and 100"
    else Except.ok (p.toNat, l.toNat)
  | _, _ => Except.error "Page and limit must be integers"

/-- State of `functools.lru_cache`: entries most-recently-used first, the
capacity bound, and the hit/miss counters `cache_info` reports. -/
structure Lru (κ : Type) (α : Type) where
  entries : List (κ × α)
  maxsize : Nat
  hits : Nat
  misses : Nat
deriving DecidableEq, Repr

/-- Find the value cached for `k`, if any. -/
def lookupEnt [DecidableEq κ] (k : κ) (es : List (κ × α)) : Option α :=
  (es.find? fun p => decide (p.1 = k)).map (fun p => p.2)

/-- Move the entry for `k` to the most-recently-used position. -/
def promote [DecidableEq κ] (k : κ) (v : α) (es : List (κ × α)) : List (κ × α) :=
  (k, v) :: es.filter fun p => !(decide (p.1 = k))

/-- One `lru_cache` call: a hit returns the cached value, bumps `hits` and
refreshes recency; a miss bumps `misses` and runs the computation — on
success the value is inserted (evicting least-recently-used entries beyond
`maxsize`), on an exception nothing is cached. -/
def cacheGetOrCompute [DecidableEq κ] (st : Lru κ α) (k : κ)
    (f : Unit → Except ε α) : Except ε α × Lru κ α :=
  match lookupEnt k st.entries with
  | some v =>
    (Except.ok v, { st with entries := promote k v st.entries, hits := st.hits + 1 })
  | none =>
    match f () with
    | Except.ok v =>
      (Except.ok v,
        { st with entries := ((k, v) :: st.entries).take st.maxsize,
                  misses := st.misses + 1 })
    | Except.error e => (Except.error e, { st with misses := st.misses + 1 })

/-- Cache key of `search_with_filters`: the three validated predicates, page,
limit, and the `DF_ID` token (`None` when no table is loaded). -/
structure SKey where
  actor : Option (List Nat)
  director : Option (List Nat)
  genre : Option (List Nat)
  page : Nat
  limit : Nat
  dfId : Option Nat
deriving DecidableEq, Repr

/-- The process-wide search cache (`@lru_cache(maxsize=256)`). -/
abbrev SearchCache := Lru SKey QueryResult

/-- The `maxsize=256` bound of the route's cache. -/
def cacheMaxsize : Nat := 256

/-- A fresh cache, as at process start. -/
def emptyCache : SearchCache :=
  { entries := [], maxsize := cacheMaxsize, hits := 0, misses := 0 }

/-- Counter snapshot the `/metrics` endpoint reports from `cache_info()`
(the derived `hit_rate` fields are arithmetic on these and not separately
modelled). -/
structure CacheMetrics where
  hits : Nat
  misses : Nat
  size : Nat
  maxsize : Nat
deriving DecidableEq, Repr

/-- The `/metrics` counters for a cache state. -/
def metricsRun (st : SearchCache) : CacheMetrics :=
  { hits := st.hits, misses := st.misses,
    size := st.entries.length, maxsize := st.maxsize }

/-- The query parameters of one `/search` request: the five known parameters
(`none` = absent from the query string) and the names of any unknown ones. -/
structure SearchArgs where
  unknown : List String
  actor : Option (List Nat)
  director : Option (List Nat)
  genre : Option (List Nat)
  page : Option (List Nat)
  limit : Option (List Nat)
deriving DecidableEq, Repr

/-- Python truthiness of an optional string parameter (`request.args.get`
returns `None` or a string; `""` is falsy). -/
def truthy (o : Option (List Nat)) : Bool :=
  match o with
  | none => false
  | some s => !s.isEmpty

/-- The validation phase of the `/search` endpoint, in the code's order:
unknown-parameter check, at-least-one-predicate check, the three
`validate_search_param` calls, then `validate_pagination`; the first failure
wins and becomes a 400. -/
def parseSearchArgs (args : SearchArgs) :
    Except String (Option (List Nat) × Option (List Nat) × Option (List Nat) × Nat × Nat) :=
  if args.unknown.isEmpty then
    if truthy args.actor || truthy args.director || truthy args.genre then
      match validate_search_param args.actor "actor" with
      | Except.error e => Except.error e
      | Except.ok a =>
        match validate_search_param args.director "director" with
        | Except.error e => Except.error e
        | Except.ok d =>
          match validate_search_param args.genre "genre" with
          | Except.error e => Except.error e
          | Except.ok g =>
            match validate_pagination args.page args.limit with
            | Except.error e => Except.error e
            | Except.ok (p, l) => Except.ok (a, d, g, p, l)
    else Except.error "At least one search parameter required (actor, director, or genre)"
  else Except.error "Unsupported query parameter(s)"

/-- Outcome of a `/search` request, tagged like the route's responses. -/
inductive SearchResp where
  | ok (r : QueryResult)
  | clientError (msg : String)
  | serviceUnavailable
  | internalError
deriving DecidableEq, Repr

/-- HTTP status code of a `/search` outcome. -/
def SearchResp.code : SearchResp → Nat
  | SearchResp.ok _ => 200
  | SearchResp.clientError _ => 400
  | SearchResp.serviceUnavailable => 503
  | SearchResp.internalError => 500

/-- Whether a `/search` outcome is a 400 client error. -/
def SearchResp.isClientError : SearchResp → Bool
  | SearchResp.clientError _ => true
  | _ => false

/-- Whether a `/search` outcome is a 200 success. -/
def SearchResp.isOk : SearchResp → Bool
  | SearchResp.ok _ => true
  | _ => false

/-- The body of the cached search computation: it reads the table via
`get_df`, whose `RuntimeError` when no table is loaded is the error case
(the route turns it into a 503).  `searchRun` runs it through the
`lru_cache` keyed on the validated tuple plus the `DF_ID` token. -/
def searchCompute (df : Option Table) (a d g : Option (List Nat)) (p l : Nat) :
    Unit → Except String QueryResult := fun _ =>
  match df with
  | none => Except.error "Dataset not loaded. Check app initialization."
  | some t => Except.ok (search_with_filters a d g p l t)

/-- The full `/search` request handler. -/
def searchRun (df : Option Table) (dfId : Option Nat) (args : SearchArgs)
    (st : SearchCache) : SearchResp × SearchCache :=
  match parseSearchArgs args with
  | Except.error e => (SearchResp.clientError e, st)
  | Except.ok (a, d, g, p, l) =>
    let res := cacheGetOrCompute st ⟨a, d, g, p, l, dfId⟩ (searchCompute df a d g p l)
    ((match res.1 with
      | Except.ok r => SearchResp.ok r
      | Except.error _ => SearchResp.serviceUnavailable), res.2)

/-- Split a string on the two-character separator `", "` (codes 44, 32), as
polars `str.split(", ")` does: every occurrence splits, no merging. -/
def splitCS (acc : List Nat) : List Nat → List (List Nat)
  | [] => [acc.reverse]
  | 44 :: 32 :: rest => acc.reverse :: splitCS [] rest
  | c :: rest => splitCS (c :: acc) rest

/-- The exploded genre token stream of a table: every row's `listed_in`
split on `", "`, concatenated in row order. -/
def genreTokens (t : Table) : List (List Nat) :=
  t.flatMap fun r => splitCS [] r.listed_in

/-- First occurrence of each element, in encounter order. -/
def dedupGo (seen : List (List Nat)) : List (List Nat) → List (List Nat)
  | [] => []
  | x :: rest =>
    if x ∈ seen then dedupGo seen rest else x :: dedupGo (x :: seen) rest

/-- Distinct elements of a token stream in first-encountered order. -/
def dedupFirst (xs : List (List Nat)) : List (List Nat) := dedupGo [] xs

/-- The (value, count) table of polars `Series.value_counts()` as the stats
route calls it — with its default `sort=False`, so the rows are NOT ordered
by count; the model renders the unsorted output deterministically in
first-encountered order (polars documents the unsorted order as arbitrary,
and no order it could take is sorted-by-count in general). -/
def value_counts (xs : List (List Nat)) : List (List Nat × Nat) :=
  (dedupFirst xs).map fun g => (g, xs.countP fun x => decide (x = g))

/-- The `top_genres` value the stats route computes:
`split(", ").explode().value_counts().head(10)`. -/
def top_genres_calc (t : Table) : List (List Nat × Nat) :=
  (value_counts (genreTokens t)).take 10

/-- Modelled from the spec's words: insert into a count-descending list,
keeping earlier-seen entries ahead of later ones with the same count (the
inserted entry precedes every later entry whose count does not exceed its
own). -/
def insertDesc (p : List Nat × Nat) : List (List Nat × Nat) → List (List Nat × Nat)
  | [] => [p]
  | q :: rest => if p.2 < q.2 then q :: insertDesc p rest else p :: q :: rest

/-- Modelled from the spec's words: stable sort by count, descending. -/
def sortByCountDesc (l : List (List Nat × Nat)) : List (List Nat × Nat) :=
  l.foldr insertDesc []

/-- Modelled from the spec's words: the 10 most frequent genres with their
counts, ties broken by first-encountered order in the token stream. -/
def topGenresSpec (t : Table) : List (List Nat × Nat) :=
  (sortByCountDesc (value_counts (genreTokens t))).take 10

/-- The aggregate payload of the `/stats` route. -/
structure StatsData where
  total_titles : Nat
  movies : Nat
  tv_shows : Nat
  year_min : Int
  year_max : Int
  top_genres : List (List Nat × Nat)
deriving DecidableEq, Repr

/-- Outcome of a `/stats` request.  The route's only handler is
`except Exception → 500`, so every failure — including `get_df`'s
`RuntimeError` when no table is loaded, and the `TypeError` from
`int(None)` on an empty table's year aggregates — is a 500. -/
inductive StatsResp where
  | ok (d : StatsData)
  | internalError
deriving DecidableEq, Repr

/-- HTTP status code of a `/stats` outcome. -/
def StatsResp.code : StatsResp → Nat
  | StatsResp.ok _ => 200
  | StatsResp.internalError => 500

/-- The `/stats` endpoint over the (possibly absent) table. -/
def statsRun (df : Option Table) : StatsResp :=
  match df with
  | none => StatsResp.internalError
  | some t =>
    if t.isEmpty then StatsResp.internalError
    else
      StatsResp.ok
        { total_titles := t.length
          movies := (t.filter fun r => decide (r.type = strN "Movie")).length
          tv_shows := (t.filter fun r => decide (r.type = strN "TV Show")).length
          year_min := ((t.map fun r => r.release_year).min?).getD 0
          year_max := ((t.map fun r => r.release_year).max?).getD 0
          top_genres := top_genres_calc t }

/-- Outcome of a `/health` request. -/
inductive HealthResp where
  | healthy (records_count : Nat)
  | unhealthy
deriving DecidableEq, Repr

/-- HTTP status code of a `/health` outcome. -/
def HealthResp.code : HealthResp → Nat
  | HealthResp.healthy _ => 200
  | HealthResp.unhealthy => 503

/-- The `/health` endpoint: 200/healthy with the record count when the table
is loaded, 503/unhealthy when `get_df` raises. -/
def healthRun (df : Option Table) : HealthResp :=
  match df with
  | none => HealthResp.unhealthy
  | some t => HealthResp.healthy t.length

/-- A sample row (the spec's worked example). -/
def rec0 : Record :=
  { title := strN "Erin Brockovich", type := strN "Movie", release_year := 2000,
    director := strN "Steven Soderbergh", cast := strN "Julia Roberts, Tom Cruise",
    listed_in := strN "Dramas" }

/-- A `/search` request for `actor=julia` with default pagination. -/
def q1args : SearchArgs :=
  { unknown := [], actor := some (strN "julia"), director := none, genre := none,
    page := none, limit := none }

/-- The same request with the predicate upper-cased. -/
def q2args : SearchArgs :=
  { unknown := [], actor := some (strN "JULIA"), director := none, genre := none,
    page := none, limit := none }

/-- Characters the Rust regex engine treats as metacharacters:
`. ^ $ * + ? ( ) [ ] { } | \`. -/
def isRegexMeta (c : Nat) : Bool :=
  c == 46 || c == 94 || c == 36 || c == 42 || c == 43 || c == 63 || c == 40 ||
  c == 41 || c == 91 || c == 93 || c == 123 || c == 124 || c == 125 || c == 92

/-- A predicate (if supplied) is free of regex metacharacters. -/
def noMetaChars (o : Option (List Nat)) : Bool :=
  match o with
  | none => true
  | some s => s.all fun c => !isRegexMeta c

theorem pyLowerN_isRegexMeta (c : Nat) (h : isRegexMeta c = false) :
    isRegexMeta (pyLowerN c) = false := by
  simp only [isRegexMeta, Bool.or_eq_false_iff, beq_eq_false_iff_ne, ne_eq] at h ⊢
  unfold pyLowerN
  split
  · omega
  · exact h

theorem pyLower_noMeta (s : List Nat) (h : s.all (fun c => !isRegexMeta c) = true) :
    (pyLower s).all (fun c => !isRegexMeta c) = true := by
  rw [List.all_eq_true] at h ⊢
  intro c hc
  rw [pyLower, List.mem_map] at hc
  obtain ⟨d, hd, rfl⟩ := hc
  have hdm := h d hd
  rw [Bool.not_eq_true'] at hdm ⊢
  exact pyLowerN_isRegexMeta d hdm

theorem parsePat_no_meta (p : List Nat) (h : p.all (fun c => !isRegexMeta c) = true) :
    parsePat p = p.map RTok.lit := by
  induction p with
  | nil => rfl
  | cons c cs ih =>
    rw [List.all_cons, Bool.and_eq_true] at h
    have h46 : (c == 46) = false := by
      have hm := h.1
      rw [Bool.not_eq_true'] at hm
      simp only [isRegexMeta, Bool.or_eq_false_iff] at hm
      exact hm.1.1.1.1.1.1.1.1.1.1.1.1.1
    have ihr : List.map (fun c => if (c == 46) = true then RTok.dot else RTok.lit c) cs
        = List.map RTok.lit cs := by
      simpa [parsePat] using ih h.2
    simp only [parsePat, List.map_cons] at ihr ⊢
    simp [parsePat, h46, ihr]
    intro a ha
    have hall := (List.all_eq_true.mp h.2) a ha
    rw [Bool.not_eq_true'] at hall
    simp only [isRegexMeta, Bool.or_eq_false_iff] at hall
    have h46a := hall.1.1.1.1.1.1.1.1.1.1.1.1.1
    simpa using h46a

theorem matchHere_lits (p : List Nat) (hay : List Nat) :
    matchHere (p.map RTok.lit) hay = leadsWith p hay := by
  induction p generalizing hay with
  | nil => cases hay <;> rfl
  | cons c cs ih =>
    cases hay with
    | nil => rfl
    | cons h hs => simp [matchHere, leadsWith, tokMatches, ih]

theorem reContains_lits (p : List Nat) (hay : List Nat) :
    reContains (p.map RTok.lit) hay = hasSub p hay := by
  induction hay with
  | nil =>
    cases p with
    | nil => rfl
    | cons c cs => rfl
  | cons h hs ih =>
    simp [reContains, hasSub, matchHere_lits, ih]

theorem optPred_eq_literal (o : Option (List Nat)) (h : noMetaChars o = true)
    (col : List Nat) : optPred o col = optPredLiteral o col := by
  cases o with
  | none => rfl
  | some s =>
    simp only [optPred, optPredLiteral]
    split
    · rfl
    · unfold predMatch
      rw [parsePat_no_meta (pyLower s) (pyLower_noMeta s h), reContains_lits]

/-- C1 (counterexample): the claim "predicate strings are never interpreted
as regular expressions" is false — the route passes predicates to
`str.contains(..., literal=False)`, so the metacharacter pattern `t.m`
matches the row whose cast contains `tom`, although `t.m` is not a literal
substring of any column value. -/
theorem C1_metachar_counterexample :
    (search_with_filters (some (strN "t.m")) none none 1 20 [rec0]).total = 1
    ∧ (searchLiteralSpec (some (strN "t.m")) none none 1 20 [rec0]).total = 0
    ∧ hasSub (pyLower (strN "t.m")) (pyLower rec0.cast) = false := by
  decide

/-- C1 (amended): each supplied predicate is matched against the case-folded
column value by a regex engine (`literal=False`); for predicate strings free
of regex metacharacters this coincides exactly with literal substring
containment, i.e. the search equals the spec's literal-substring search. -/
theorem C1_literal_when_no_metachars (a d g : Option (List Nat))
    (page limit : Nat) (t : Table) (ha : noMetaChars a = true)
    (hd : noMetaChars d = true) (hg : noMetaChars g = true) :
    search_with_filters a d g page limit t = searchLiteralSpec a d g page limit t := by
  have hfun : rowKeep a d g = rowKeepLiteral a d g := by
    funext r
    unfold rowKeep rowKeepLiteral
    rw [optPred_eq_literal a ha, optPred_eq_literal d hd, optPred_eq_literal g hg]
  unfold search_with_filters searchLiteralSpec
  rw [hfun]

/-- Concrete instance of `C1_literal_when_no_metachars`: the metacharacter-free
predicate `julia` filters identically under regex and literal semantics. -/
theorem C1_literal_when_no_metachars_witness :
    noMetaChars (some (strN "julia")) = true
    ∧ search_with_filters (some (strN "julia")) none none 1 20 [rec0]
        = searchLiteralSpec (some (strN "julia")) none none 1 20 [rec0] :=
  ⟨by decide,
   C1_literal_when_no_metachars (some (strN "julia")) none none 1 20 [rec0]
     (by decide) (by decide) (by decide)⟩

theorem pyLowerN_pyUpperN (c : Nat) : pyLowerN (pyUpperN c) = pyLowerN c := by
  simp only [pyLowerN, pyUpperN]
  split_ifs <;> omega

theorem pyLowerN_pyLowerN (c : Nat) : pyLowerN (pyLowerN c) = pyLowerN c := by
  simp only [pyLowerN]
  split_ifs <;> omega

theorem pyLower_pyUpper (s : List Nat) : pyLower (pyUpper s) = pyLower s := by
  simp [pyLower, pyUpper, List.map_map, Function.comp, pyLowerN_pyUpperN]

theorem pyLower_pyLower (s : List Nat) : pyLower (pyLower s) = pyLower s := by
  simp [pyLower, List.map_map, Function.comp, pyLowerN_pyLowerN]

theorem optPred_pyUpper (o : Option (List Nat)) (col : List Nat) :
    optPred (o.map pyUpper) col = optPred o col := by
  cases o with
  | none => rfl
  | some s =>
    show optPred (some (pyUpper s)) col = optPred (some s) col
    simp only [optPred]
    have hlen : (pyUpper s).isEmpty = s.isEmpty := by
      cases s <;> rfl
    rw [hlen]
    split
    · rfl
    · unfold predMatch
      rw [pyLower_pyUpper]

theorem optPred_pyLower (o : Option (List Nat)) (col : List Nat) :
    optPred (o.map pyLower) col = optPred o col := by
  cases o with
  | none => rfl
  | some s =>
    show optPred (some (pyLower s)) col = optPred (some s) col
    simp only [optPred]
    have hlen : (pyLower s).isEmpty = s.isEmpty := by
      cases s <;> rfl
    rw [hlen]
    split
    · rfl
    · unfold predMatch
      rw [pyLower_pyLower]

/-- C5: filtering is case-insensitive in the predicates — upper-casing or
lower-casing any supplied predicate leaves the whole query result (results,
total, pages, everything) unchanged, because the route case-folds the
predicate before matching. -/
theorem C5_case_insensitive (a d g : Option (List Nat)) (page limit : Nat)
    (t : Table) :
    search_with_filters (a.map pyUpper) (d.map pyUpper) (g.map pyUpper) page limit t
        = search_with_filters a d g page limit t
    ∧ search_with_filters (a.map pyLower) (d.map pyLower) (g.map pyLower) page limit t
        = search_with_filters a d g page limit t := by
  constructor
  · have hfun : rowKeep (a.map pyUpper) (d.map pyUpper) (g.map pyUpper) = rowKeep a d g := by
      funext r
      unfold rowKeep
      rw [optPred_pyUpper, optPred_pyUpper, optPred_pyUpper]
    unfold search_with_filters
    rw [hfun]
  · have hfun : rowKeep (a.map pyLower) (d.map pyLower) (g.map pyLower) = rowKeep a d g := by
      funext r
      unfold rowKeep
      rw [optPred_pyLower, optPred_pyLower, optPred_pyLower]
    unfold search_with_filters
    rw [hfun]

/-- Modelled from the spec's words: ceiling division `ceil(total / limit)`
on naturals. -/
def ceilNat (a b : Nat) : Nat := a / b + if a % b = 0 then 0 else 1

theorem ceil_div_formula (a b : Nat) (hb : 1 ≤ b) (ha : 1 ≤ a) :
    (a + b - 1) / b = ceilNat a b := by
  have hmod := Nat.div_add_mod a b
  have hlt : a % b < b := Nat.mod_lt a (by omega)
  unfold ceilNat
  by_cases h0 : a % b = 0
  · have e1 : a + b - 1 = b * (a / b) + (b - 1) := by omega
    rw [e1, Nat.mul_add_div (by omega : 0 < b),
      Nat.div_eq_of_lt (by omega : b - 1 < b), h0]
    simp
  · have e2 : b * (a / b + 1) = b * (a / b) + b := by ring
    have e1 : a + b - 1 = b * (a / b + 1) + (a % b - 1) := by omega
    rw [e1, Nat.mul_add_div (by omega : 0 < b),
      Nat.div_eq_of_lt (by omega : a % b - 1 < b), if_neg h0]

/-- C4: invariants of every `QueryResult` the search computation returns
(for a validated limit ≥ 1): `total` is the filtered row count; `pages` is
`ceil(total / limit)` when `total > 0` and `0` otherwise; the returned rows
are exactly the filtered rows at indices `offset + i` for `i < limit` with
`offset = (page - 1) * limit` (so the slice is the index range
`[offset, offset + limit)`), empty when `offset ≥ total`; and the number of
returned rows is `min limit (total - offset)`. -/
theorem C4_pagination_invariants (a d g : Option (List Nat)) (page limit : Nat)
    (t : Table) (hl : 1 ≤ limit) :
    (search_with_filters a d g page limit t).total = (t.filter (rowKeep a d g)).length
    ∧ (search_with_filters a d g page limit t).pages =
        (if 0 < (t.filter (rowKeep a d g)).length
         then ceilNat (t.filter (rowKeep a d g)).length limit else 0)
    ∧ (∀ i : Nat, (search_with_filters a d g page limit t).results[i]? =
        if i < limit then (t.filter (rowKeep a d g))[(page - 1) * limit + i]? else none)
    ∧ ((t.filter (rowKeep a d g)).length ≤ (page - 1) * limit →
        (search_with_filters a d g page limit t).results = [])
    ∧ (search_with_filters a d g page limit t).results.length =
        min limit ((t.filter (rowKeep a d g)).length - (page - 1) * limit) := by
  unfold search_with_filters
  refine ⟨rfl, ?_, ?_, ?_, ?_⟩
  · show (if 0 < (t.filter (rowKeep a d g)).length
        then ((t.filter (rowKeep a d g)).length + limit - 1) / limit else 0) = _
    split
    · exact ceil_div_formula _ limit hl (by omega)
    · rfl
  · intro i
    show (((t.filter (rowKeep a d g)).drop ((page - 1) * limit)).take limit)[i]? = _
    rw [List.getElem?_take]
    split
    · rw [List.getElem?_drop]
    · rfl
  · intro hle
    show (((t.filter (rowKeep a d g)).drop ((page - 1) * limit)).take limit) = []
    rw [List.drop_eq_nil_of_le hle, List.take_nil]
  · show (((t.filter (rowKeep a d g)).drop ((page - 1) * limit)).take limit).length = _
    rw [List.length_take, List.length_drop]

/-- A five-row table for pagination witnesses. -/
def tbl5 : Table := [rec0, rec0, rec0, rec0, rec0]

/-- Concrete instance of `C4_pagination_invariants`: page 2 of a five-row
unfiltered result at limit 2. -/
theorem C4_pagination_invariants_witness :
    1 ≤ 2
    ∧ (search_with_filters none none none 2 2 tbl5).total
        = (tbl5.filter (rowKeep none none none)).length
    ∧ (search_with_filters none none none 2 2 tbl5).pages =
        (if 0 < (tbl5.filter (rowKeep none none none)).length
         then ceilNat (tbl5.filter (rowKeep none none none)).length 2 else 0)
    ∧ ((search_with_filters none none none 2 2 tbl5).results[0]? =
        if 0 < 2 then (tbl5.filter (rowKeep none none none))[(2 - 1) * 2 + 0]? else none)
    ∧ (search_with_filters none none none 2 2 tbl5).results.length =
        min 2 ((tbl5.filter (rowKeep none none none)).length - (2 - 1) * 2) :=
  ⟨by decide,
   (C4_pagination_invariants none none none 2 2 tbl5 (by decide)).1,
   (C4_pagination_invariants none none none 2 2 tbl5 (by decide)).2.1,
   (C4_pagination_invariants none none none 2 2 tbl5 (by decide)).2.2.1 0,
   (C4_pagination_invariants none none none 2 2 tbl5 (by decide)).2.2.2.2⟩

theorem lookupEnt_after_call [DecidableEq κ] {α ε : Type} (st : Lru κ α) (k : κ)
    (f : Unit → Except ε α) (v : α) (hmax : 0 < st.maxsize)
    (h : (cacheGetOrCompute st k f).1 = Except.ok v) :
    lookupEnt k (cacheGetOrCompute st k f).2.entries = some v := by
  cases hl : lookupEnt k st.entries with
  | some w =>
    simp only [cacheGetOrCompute, hl] at h ⊢
    simp only [Except.ok.injEq] at h
    subst h
    simp [lookupEnt, promote, List.find?]
  | none =>
    simp only [cacheGetOrCompute, hl] at h ⊢
    cases hf : f () with
    | ok w =>
      simp only [hf] at h ⊢
      simp only [Except.ok.injEq] at h
      subst h
      obtain ⟨m, hm⟩ : ∃ m, st.maxsize = m + 1 := ⟨st.maxsize - 1, by omega⟩
      rw [hm]
      simp [lookupEnt, List.take_succ_cons, List.find?]
    | error e =>
      simp only [hf] at h
      exact absurd h (by simp)

theorem cacheGetOrCompute_hit [DecidableEq κ] {α ε : Type} (st : Lru κ α) (k : κ)
    (g : Unit → Except ε α) (v : α) (hl : lookupEnt k st.entries = some v) :
    cacheGetOrCompute st k g =
      (Except.ok v,
        { st with entries := promote k v st.entries, hits := st.hits + 1 }) := by
  unfold cacheGetOrCompute
  rw [hl]

theorem cache_repeat_hit [DecidableEq κ] {α ε : Type} (st : Lru κ α) (k : κ)
    (f g : Unit → Except ε α) (v : α) (hmax : 0 < st.maxsize)
    (h : (cacheGetOrCompute st k f).1 = Except.ok v) :
    (cacheGetOrCompute (cacheGetOrCompute st k f).2 k g).1 = Except.ok v
    ∧ (cacheGetOrCompute (cacheGetOrCompute st k f).2 k g).2.hits
        = (cacheGetOrCompute st k f).2.hits + 1
    ∧ (cacheGetOrCompute (cacheGetOrCompute st k f).2 k g).2.misses
        = (cacheGetOrCompute st k f).2.misses := by
  have hl := lookupEnt_after_call st k f v hmax h
  rw [cacheGetOrCompute_hit _ k g v hl]
  exact ⟨rfl, rfl, rfl⟩

theorem searchRun_repeat (df : Option Table) (dfId : Option Nat)
    (a1 a2 : SearchArgs) (st : SearchCache)
    (tup : Option (List Nat) × Option (List Nat) × Option (List Nat) × Nat × Nat)
    (q : QueryResult) (hmax : 0 < st.maxsize)
    (h1 : parseSearchArgs a1 = Except.ok tup)
    (h2 : parseSearchArgs a2 = Except.ok tup)
    (hok : (searchRun df dfId a1 st).1 = SearchResp.ok q) :
    (searchRun df dfId a2 (searchRun df dfId a1 st).2).1 = SearchResp.ok q
    ∧ (searchRun df dfId a2 (searchRun df dfId a1 st).2).2.hits
        = (searchRun df dfId a1 st).2.hits + 1
    ∧ (searchRun df dfId a2 (searchRun df dfId a1 st).2).2.misses
        = (searchRun df dfId a1 st).2.misses := by
  obtain ⟨a, d, g, p, l⟩ := tup
  simp only [searchRun, h1, h2] at hok ⊢
  cases hc : (cacheGetOrCompute st ⟨a, d, g, p, l, dfId⟩ (searchCompute df a d g p l)).1 with
  | error e => rw [hc] at hok; exact absurd hok (by simp)
  | ok r =>
    rw [hc] at hok
    simp only [SearchResp.ok.injEq] at hok
    subst hok
    have hrep := cache_repeat_hit st ⟨a, d, g, p, l, dfId⟩
      (searchCompute df a d g p l) (searchCompute df a d g p l) r hmax hc
    refine ⟨?_, hrep.2.1, hrep.2.2⟩
    rw [hrep.1]

/-- C6: repeating an identical valid query against an unchanged table
version is idempotent and hits the cache — the second, immediately repeated
call returns the very same `QueryResult` and, in the `/metrics` counters,
`hits` increments while `misses` stays unchanged. -/
theorem C6_repeat_query_is_cache_hit (df : Option Table) (dfId : Option Nat)
    (args : SearchArgs) (st : SearchCache) (q : QueryResult)
    (hmax : 0 < st.maxsize)
    (hok : (searchRun df dfId args st).1 = SearchResp.ok q) :
    (searchRun df dfId args (searchRun df dfId args st).2).1 = SearchResp.ok q
    ∧ (metricsRun (searchRun df dfId args (searchRun df dfId args st).2).2).hits
        = (metricsRun (searchRun df dfId args st).2).hits + 1
    ∧ (metricsRun (searchRun df dfId args (searchRun df dfId args st).2).2).misses
        = (metricsRun (searchRun df dfId args st).2).misses := by
  cases hp : parseSearchArgs args with
  | error e =>
    rw [searchRun, hp] at hok
    exact absurd hok (by simp)
  | ok tup =>
    have hrep := searchRun_repeat df dfId args args st tup q hmax hp hp hok
    simpa only [metricsRun] using hrep

/-- The expected result of the `actor=julia` query over `[rec0]`. -/
def q1res : QueryResult :=
  { results := [rec0], total := 1, page := 1, limit := 20, pages := 1 }

/-- Concrete instance of `C6_repeat_query_is_cache_hit`: issuing
`actor=julia` twice on a fresh cache. -/
theorem C6_repeat_query_is_cache_hit_witness :
    0 < emptyCache.maxsize
    ∧ (searchRun (some [rec0]) (some 1) q1args emptyCache).1 = SearchResp.ok q1res
    ∧ ((searchRun (some [rec0]) (some 1) q1args
          (searchRun (some [rec0]) (some 1) q1args emptyCache).2).1 = SearchResp.ok q1res
      ∧ (metricsRun (searchRun (some [rec0]) (some 1) q1args
          (searchRun (some [rec0]) (some 1) q1args emptyCache).2).2).hits
          = (metricsRun (searchRun (some [rec0]) (some 1) q1args emptyCache).2).hits + 1
      ∧ (metricsRun (searchRun (some [rec0]) (some 1) q1args
          (searchRun (some [rec0]) (some 1) q1args emptyCache).2).2).misses
          = (metricsRun (searchRun (some [rec0]) (some 1) q1args emptyCache).2).misses) :=
  ⟨by decide, by decide,
   C6_repeat_query_is_cache_hit (some [rec0]) (some 1) q1args emptyCache q1res
     (by decide) (by decide)⟩

instance decEqTup5 :
    DecidableEq (Option (List Nat) × Option (List Nat) × Option (List Nat) × Nat × Nat) :=
  instDecidableEqProd

/-- Decidable equality for `Except` results (not provided by the library for
this nesting depth). -/
def decEqExceptFn {ε α : Type} [DecidableEq ε] [DecidableEq α] :
    DecidableEq (Except ε α)
  | Except.ok a, Except.ok b =>
    if h : a = b then isTrue (by rw [h]) else isFalse (by intro hc; cases hc; exact h rfl)
  | Except.ok _, Except.error _ => isFalse (by intro hc; cases hc)
  | Except.error _, Except.ok _ => isFalse (by intro hc; cases hc)
  | Except.error e, Except.error e' =>
    if h : e = e' then isTrue (by rw [h]) else isFalse (by intro hc; cases hc; exact h rfl)

instance instDecEqExc {ε α : Type} [DecidableEq ε] [DecidableEq α] :
    DecidableEq (Except ε α) := decEqExceptFn

/-- Modelled from the spec's words: two requests are "normalized-equal" when
their three text fields agree after trimming and case-folding and their raw
page and limit fields agree. -/
def queriesNormEq (x y : SearchArgs) : Bool :=
  let normF : Option (List Nat) → Option (List Nat) := fun o =>
    match o with
    | none => none
    | some s => some (pyLower (pyStrip s))
  decide (normF x.actor = normF y.actor)
    && decide (normF x.director = normF y.director)
    && decide (normF x.genre = normF y.genre)
    && decide (x.page = y.page) && decide (x.limit = y.limit)

/-- C2 (counterexample): `actor=julia` and `actor=JULIA` are equal after
trimming and case-folding, the table version token is unchanged, yet the
second request is NOT served from the cache — both calls are misses (the
`lru_cache` key uses the trimmed but not case-folded predicate strings). -/
theorem C2_casefold_key_counterexample :
    queriesNormEq q1args q2args = true
    ∧ (searchRun (some [rec0]) (some 1) q2args
        (searchRun (some [rec0]) (some 1) q1args emptyCache).2).2.misses = 2
    ∧ (searchRun (some [rec0]) (some 1) q2args
        (searchRun (some [rec0]) (some 1) q1args emptyCache).2).2.hits = 0 := by
  decide

/-- C2 (amended): two valid queries are cache-equivalent when their
validated (trimmed, case-SENSITIVE) predicate tuples and page/limit are
exactly equal and the version token is unchanged: after a first successful
call, the second request is served from the cache — same result, `hits`
increments, `misses` does not.  Queries differing only in letter case
produce different keys and recompute. -/
theorem C2_cache_equivalence_exact_key (df : Option Table) (dfId : Option Nat)
    (a1 a2 : SearchArgs) (st : SearchCache)
    (tup : Option (List Nat) × Option (List Nat) × Option (List Nat) × Nat × Nat)
    (q : QueryResult) (hmax : 0 < st.maxsize)
    (h1 : parseSearchArgs a1 = Except.ok tup)
    (h2 : parseSearchArgs a2 = Except.ok tup)
    (hok : (searchRun df dfId a1 st).1 = SearchResp.ok q) :
    (searchRun df dfId a2 (searchRun df dfId a1 st).2).1 = SearchResp.ok q
    ∧ (searchRun df dfId a2 (searchRun df dfId a1 st).2).2.hits
        = (searchRun df dfId a1 st).2.hits + 1
    ∧ (searchRun df dfId a2 (searchRun df dfId a1 st).2).2.misses
        = (searchRun df dfId a1 st).2.misses :=
  searchRun_repeat df dfId a1 a2 st tup q hmax h1 h2 hok

/-- A `/search` request for `actor=" julia "` (untrimmed whitespace), which
validates to the same key as `q1args`. -/
def q1padArgs : SearchArgs :=
  { unknown := [], actor := some (strN "  julia  "), director := none,
    genre := none, page := none, limit := none }

/-- Concrete instance of `C2_cache_equivalence_exact_key`: `actor="  julia  "`
followed by `actor="julia"` validate to the identical key, and the second
request is a hit returning the cached result. -/
theorem C2_cache_equivalence_exact_key_witness :
    0 < emptyCache.maxsize
    ∧ parseSearchArgs q1padArgs = Except.ok (some (strN "julia"), none, none, 1, 20)
    ∧ parseSearchArgs q1args = Except.ok (some (strN "julia"), none, none, 1, 20)
    ∧ (searchRun (some [rec0]) (some 1) q1padArgs emptyCache).1 = SearchResp.ok q1res
    ∧ ((searchRun (some [rec0]) (some 1) q1args
          (searchRun (some [rec0]) (some 1) q1padArgs emptyCache).2).1 = SearchResp.ok q1res
      ∧ (searchRun (some [rec0]) (some 1) q1args
          (searchRun (some [rec0]) (some 1) q1padArgs emptyCache).2).2.hits
          = (searchRun (some [rec0]) (some 1) q1padArgs emptyCache).2.hits + 1
      ∧ (searchRun (some [rec0]) (some 1) q1args
          (searchRun (some [rec0]) (some 1) q1padArgs emptyCache).2).2.misses
          = (searchRun (some [rec0]) (some 1) q1padArgs emptyCache).2.misses) :=
  ⟨by decide, by decide, by decide, by decide,
   C2_cache_equivalence_exact_key (some [rec0]) (some 1) q1padArgs q1args emptyCache
     (some (strN "julia"), none, none, 1, 20) q1res (by decide) (by decide) (by decide)
     (by decide)⟩

/-- C7: a search request that supplies none of actor, director and genre is
rejected with a client error (400) — whether or not unknown parameters are
also present — and the cache state is untouched: no filter or cache work
happens for it. -/
theorem C7_no_predicates_rejected (df : Option Table) (dfId : Option Nat)
    (args : SearchArgs) (st : SearchCache)
    (ha : args.actor = none) (hd : args.director = none) (hg : args.genre = none) :
    (searchRun df dfId args st).1.isClientError = true
    ∧ (searchRun df dfId args st).2 = st := by
  have hp : ∃ e, parseSearchArgs args = Except.error e := by
    unfold parseSearchArgs
    rw [ha, hd, hg]
    by_cases hu : args.unknown.isEmpty
    · rw [if_pos hu]
      exact ⟨_, rfl⟩
    · rw [if_neg hu]
      exact ⟨_, rfl⟩
  obtain ⟨e, he⟩ := hp
  simp [searchRun, he, SearchResp.isClientError]

/-- Concrete instance of `C7_no_predicates_rejected`: a request with no
query parameters at all. -/
theorem C7_no_predicates_rejected_witness :
    ({ unknown := [], actor := none, director := none, genre := none,
       page := none, limit := none } : SearchArgs).actor = none
    ∧ ((searchRun (some [rec0]) (some 1)
          { unknown := [], actor := none, director := none, genre := none,
            page := none, limit := none } emptyCache).1.isClientError = true
      ∧ (searchRun (some [rec0]) (some 1)
          { unknown := [], actor := none, director := none, genre := none,
            page := none, limit := none } emptyCache).2 = emptyCache) :=
  ⟨rfl,
   C7_no_predicates_rejected (some [rec0]) (some 1)
     { unknown := [], actor := none, director := none, genre := none,
       page := none, limit := none } emptyCache rfl rfl rfl⟩

theorem validate_bad (v : List Nat) (pname : String) (hv : v ≠ [])
    (hbad : pyStrip v = [] ∨ 100 < (pyStrip v).length) :
    ∃ msg, validate_search_param (some v) pname = Except.error msg := by
  unfold validate_search_param
  have hvE : v.isEmpty = false := by
    cases v with
    | nil => exact absurd rfl hv
    | cons a l => rfl
  simp only [hvE, Bool.false_eq_true, if_false]
  rcases hbad with h | h
  · have hsE : (pyStrip v).isEmpty = true := by rw [h]; rfl
    exact ⟨pname ++ " cannot be empty", by simp [hsE]⟩
  · have hsE : (pyStrip v).isEmpty = false := by
      cases hs : pyStrip v with
      | nil => rw [hs] at h; simp at h
      | cons a l => rfl
    exact ⟨pname ++ " exceeds maximum length of 100 characters", by simp [hsE, h]⟩

theorem parse_error_of_bad_param (args : SearchArgs) (v : List Nat)
    (hv : v ≠ []) (hbad : pyStrip v = [] ∨ 100 < (pyStrip v).length)
    (hsome : args.actor = some v ∨ args.director = some v ∨ args.genre = some v) :
    ∃ e, parseSearchArgs args = Except.error e := by
  unfold parseSearchArgs
  by_cases hu : args.unknown.isEmpty
  case neg => rw [if_neg hu]; exact ⟨_, rfl⟩
  rw [if_pos hu]
  have hvE : v.isEmpty = false := by
    cases v with
    | nil => exact absurd rfl hv
    | cons a l => rfl
  have htr : (truthy args.actor || truthy args.director || truthy args.genre) = true := by
    rcases hsome with h | h | h <;> rw [h] <;> simp [truthy, hvE]
  simp only [htr, if_true]
  rcases hsome with h | h | h
  · obtain ⟨m, hm⟩ := validate_bad v "actor" hv hbad
    rw [h, hm]
    exact ⟨_, rfl⟩
  · cases hva : validate_search_param args.actor "actor" with
    | error e => exact ⟨e, rfl⟩
    | ok a =>
      obtain ⟨m, hm⟩ := validate_bad v "director" hv hbad
      rw [h, hm]
      exact ⟨m, rfl⟩
  · cases hva : validate_search_param args.actor "actor" with
    | error e => exact ⟨e, rfl⟩
    | ok a =>
      cases hvd : validate_search_param args.director "director" with
      | error e => exact ⟨e, rfl⟩
      | ok d =>
        obtain ⟨m, hm⟩ := validate_bad v "genre" hv hbad
        rw [h, hm]
        exact ⟨m, rfl⟩

/-- C8 (amended): a text parameter supplied with a NON-empty raw value is
trimmed, and the request fails with a client error (with the cache
untouched) when the trimmed value is empty or longer than 100 characters;
a parameter supplied as the empty string, however, is treated exactly like
an absent parameter and raises no error (see the counterexample). -/
theorem C8_bad_param_rejected (df : Option Table) (dfId : Option Nat)
    (args : SearchArgs) (st : SearchCache) (v : List Nat)
    (hsome : args.actor = some v ∨ args.director = some v ∨ args.genre = some v)
    (hv : v ≠ []) (hbad : pyStrip v = [] ∨ 100 < (pyStrip v).length) :
    (searchRun df dfId args st).1.isClientError = true
    ∧ (searchRun df dfId args st).2 = st := by
  obtain ⟨e, he⟩ := parse_error_of_bad_param args v hv hbad hsome
  simp [searchRun, he, SearchResp.isClientError]

/-- A request whose `director` parameter is present but empty
(`?actor=x&director=`). -/
def c8args : SearchArgs :=
  { unknown := [], actor := some (strN "x"), director := some [], genre := none,
    page := none, limit := none }

/-- C8 (counterexample): a parameter that is present in the request with an
EMPTY value is not rejected — `?actor=x&director=` succeeds with 200 even
though `director` is present and its trimmed value is empty, because
`validate_search_param` treats a falsy value as absent. -/
theorem C8_empty_param_counterexample :
    c8args.director = some []
    ∧ pyStrip [] = []
    ∧ (searchRun (some [rec0]) (some 1) c8args emptyCache).1.isOk = true := by
  decide

/-- A request whose `actor` parameter is a single space (trims to empty). -/
def c8wArgs : SearchArgs :=
  { unknown := [], actor := some [32], director := none, genre := none,
    page := none, limit := none }

/-- Concrete instance of `C8_bad_param_rejected`: `actor=" "` (whitespace
only) is trimmed to empty and rejected with a 400. -/
theorem C8_bad_param_rejected_witness :
    (c8wArgs.actor = some [32] ∨ c8wArgs.director = some [32]
      ∨ c8wArgs.genre = some [32])
    ∧ ([32] : List Nat) ≠ []
    ∧ (pyStrip [32] = [] ∨ 100 < (pyStrip [32]).length)
    ∧ ((searchRun (some [rec0]) (some 1) c8wArgs emptyCache).1.isClientError = true
      ∧ (searchRun (some [rec0]) (some 1) c8wArgs emptyCache).2 = emptyCache) :=
  ⟨Or.inl rfl, by decide, Or.inl (by decide),
   C8_bad_param_rejected (some [rec0]) (some 1) c8wArgs emptyCache [32]
     (Or.inl rfl) (by decide) (Or.inl (by decide))⟩

/-- C10: a `page` or `limit` parameter supplied as the empty string is
treated exactly like an absent parameter — `validate_pagination` behaves
identically (so the defaults page=1, limit=20 apply and no client error is
raised), and the whole `/search` request behaves identically — even though
the empty string does not parse as an integer. -/
theorem C10_empty_pagination_like_absent :
    (∀ l, validate_pagination (some []) l = validate_pagination none l)
    ∧ (∀ p, validate_pagination p (some []) = validate_pagination p none)
    ∧ validate_pagination none none = Except.ok (1, 20)
    ∧ pyParseInt [] = none
    ∧ (∀ (df : Option Table) (dfId : Option Nat) (st : SearchCache) (args : SearchArgs),
        searchRun df dfId { args with page := some [] } st
          = searchRun df dfId { args with page := none } st)
    ∧ (∀ (df : Option Table) (dfId : Option Nat) (st : SearchCache) (args : SearchArgs),
        searchRun df dfId { args with limit := some [] } st
          = searchRun df dfId { args with limit := none } st) :=
  ⟨fun _ => rfl, fun _ => rfl, rfl, rfl,
   fun _ _ _ _ => rfl, fun _ _ _ _ => rfl⟩

/-- C9 (counterexample): the `/stats` endpoint reads the table, but when the
table is absent it fails with a generic 500 internal error ("Failed to
retrieve statistics"), not with a 503 service-unavailable condition — its
only handler is `except Exception → 500`, so the claim "service-unavailable
for every endpoint that reads the table" is false. -/
theorem C9_stats_not_unavailable_counterexample :
    statsRun none = StatsResp.internalError
    ∧ (statsRun none).code = 500
    ∧ (statsRun none).code ≠ 503 := by
  decide

/-- C9 (amended): when the table is absent at query time, `/search` (on a
cache miss) and `/health` fail with a 503 service-unavailable condition,
while `/stats` fails with a 500 internal error instead. -/
theorem C9_absent_table_errors (dfId : Option Nat) (args : SearchArgs)
    (st : SearchCache) (a d g : Option (List Nat)) (p l : Nat)
    (hp : parseSearchArgs args = Except.ok (a, d, g, p, l))
    (hmiss : lookupEnt (⟨a, d, g, p, l, dfId⟩ : SKey) st.entries = none) :
    (searchRun none dfId args st).1 = SearchResp.serviceUnavailable
    ∧ ((searchRun none dfId args st).1).code = 503
    ∧ statsRun none = StatsResp.internalError
    ∧ (statsRun none).code = 500
    ∧ healthRun none = HealthResp.unhealthy
    ∧ (healthRun none).code = 503 := by
  simp only [searchRun, hp]
  unfold cacheGetOrCompute
  rw [hmiss]
  exact ⟨rfl, rfl, rfl, rfl, rfl, rfl⟩

/-- Concrete instance of `C9_absent_table_errors`: the `actor=julia` request
against a process with no table loaded, with a fresh cache. -/
theorem C9_absent_table_errors_witness :
    parseSearchArgs q1args = Except.ok (some (strN "julia"), none, none, 1, 20)
    ∧ lookupEnt (⟨some (strN "julia"), none, none, 1, 20, none⟩ : SKey)
        emptyCache.entries = none
    ∧ ((searchRun none none q1args emptyCache).1 = SearchResp.serviceUnavailable
      ∧ ((searchRun none none q1args emptyCache).1).code = 503
      ∧ statsRun none = StatsResp.internalError
      ∧ (statsRun none).code = 500
      ∧ healthRun none = HealthResp.unhealthy
      ∧ (healthRun none).code = 503) :=
  ⟨by decide, by decide,
   C9_absent_table_errors none q1args emptyCache (some (strN "julia")) none none 1 20
     (by decide) (by decide)⟩

/-- A row carrying only a `listed_in` value (all other columns blank). -/
def mkGenreRow (s : String) : Record :=
  { title := [], type := strN "Movie", release_year := 2000,
    director := [], cast := [], listed_in := strN s }

/-- Twelve rows over eleven distinct genres; the genre `zz`, first seen
last, occurs twice while the ten genres seen earlier occur once each. -/
def c3Table : Table :=
  [mkGenreRow "a", mkGenreRow "b", mkGenreRow "c", mkGenreRow "d", mkGenreRow "e",
   mkGenreRow "f", mkGenreRow "g", mkGenreRow "h", mkGenreRow "i", mkGenreRow "j",
   mkGenreRow "zz", mkGenreRow "zz"]

/-- C3: evidence that `top_genres` is NOT the 10 most frequent genres.  The
stats route takes `value_counts().head(10)` without `sort=True`, so it
returns the first ten distinct genres of the (unsorted) counts table —
rendered here in first-encountered order — and the strictly most frequent
genre `zz` (count 2, every reported genre has count 1) is absent, while the
spec's count-then-first-seen top-10 leads with it. -/
theorem C3_top_genres_unsorted_bug :
    (genreTokens c3Table).countP (fun x => decide (x = strN "zz")) = 2
    ∧ (top_genres_calc c3Table).all (fun p => decide (p.1 ≠ strN "zz") && decide (p.2 = 1)) = true
    ∧ (topGenresSpec c3Table).head?.map (fun p => p.1) = some (strN "zz")
    ∧ top_genres_calc c3Table ≠ topGenresSpec c3Table
    ∧ statsRun (some c3Table) = StatsResp.ok
        { total_titles := 12, movies := 12, tv_shows := 0, year_min := 2000,
          year_max := 2000, top_genres := top_genres_calc c3Table } := by
  decide
